import Mathlib

/-!
Verification of the YogAI pose-classification pipeline.

The definitions below are a shallow embedding of the Python code in
src/yoga_backend: the stage-tracker state and its update rule from
pose_detectors/base_detector.py and pose_detectors/plank_detector.py,
the feature builder from utils.py, and the orchestrator from
pose_detector.py.  Probabilities are modelled as rationals, the stage
labels as the exact strings the code uses, and fallible external steps
(keypoint extraction, model prediction, visualization) as explicit
outcome parameters.
-/

/-- One tracked body point: normalized position and visibility
(mediapipe landmark as consumed by utils.extract_important_keypoints). -/
structure Landmark where
  x : ℚ
  y : ℚ
  z : ℚ
  visibility : ℚ
deriving DecidableEq

/-- One entry of PlankDetector.detect's self.results list: the dict
with keys stage, timestamp, probability appended on a stage transition. -/
structure TrackerEvent where
  stage : String
  timestamp : ℤ
  probability : ℚ
deriving DecidableEq

/-- The mutable per-detector state of BasePoseDetector:
previous_stage, results, has_error (base_detector.py lines 11-14). -/
structure TrackerState where
  previous_stage : String
  results : List TrackerEvent
  has_error : Bool
deriving DecidableEq

/-- BasePoseDetector.__init__: previous_stage = "unknown", results = [],
has_error = False. -/
def initState : TrackerState :=
  { previous_stage := "unknown", results := [], has_error := false }

/-- BasePoseDetector.clear_results (base_detector.py lines 52-58). -/
def clear_results (_ : TrackerState) : TrackerState :=
  { previous_stage := "unknown", results := [], has_error := false }

/-- PlankDetector.PREDICTION_PROBABILITY_THRESHOLD = 0.6
(plank_detector.py line 10). -/
def PREDICTION_PROBABILITY_THRESHOLD : ℚ := 3 / 5

/-- The prediction-evaluation block of PlankDetector.detect
(plank_detector.py lines 76-84): the class label gated by the
probability threshold yields the effective stage. -/
def classifyStage (predicted_class : String) (max_prob : ℚ) : String :=
  if predicted_class = "C" ∧ max_prob ≥ PREDICTION_PROBABILITY_THRESHOLD then
    "correct"
  else if predicted_class = "L" ∧ max_prob ≥ PREDICTION_PROBABILITY_THRESHOLD then
    "low back"
  else if predicted_class = "H" ∧ max_prob ≥ PREDICTION_PROBABILITY_THRESHOLD then
    "high back"
  else
    "unknown"

/-- The stage-management block of PlankDetector.detect
(plank_detector.py lines 86-98): append a transition event and raise
has_error when entering an error stage, clear has_error on a
non-error stage, and always record the stage as previous_stage. -/
def stageManagement (s : TrackerState) (current_stage : String)
    (timestamp : ℤ) (max_prob : ℚ) : TrackerState :=
  let s1 :=
    if current_stage = "low back" ∨ current_stage = "high back" then
      if s.previous_stage ≠ current_stage then
        { s with
          results := s.results ++ [⟨current_stage, timestamp, max_prob⟩],
          has_error := true }
      else s
    else
      { s with has_error := false }
  { s1 with previous_stage := current_stage }

/-- Whether a stage is one of the designated error stages of the plank
detector (the membership test on line 87 of plank_detector.py). -/
def isErrorStage (stage : String) : Bool :=
  stage == "low back" || stage == "high back"

/-- The dict returned by a successful PlankDetector.detect call
(plank_detector.py lines 123-128). -/
structure DetectResult where
  stage : String
  is_correct : Bool
  probability : ℚ
  has_error : Bool
deriving DecidableEq

/-- Outcome of the fallible front part of PlankDetector.detect
(lines 66-74): keypoint extraction, scaling and model prediction either
raise, or produce a predicted class label and a max probability. -/
inductive ClassifyOutcome where
  | fail
  | ok (predicted_class : String) (max_prob : ℚ)
deriving DecidableEq

/-- PlankDetector.detect (plank_detector.py lines 61-131) as a state
transformer.  The detector object is mutated in place in Python, so the
function returns the tracker state after the call together with the
returned dict; a raised exception is the none result.  The boolean
vizOk models whether the visualization block (lines 100-121), which
runs after the stage management has already updated the state, raises:
when it does, the mutated state persists and the call fails. -/
def detect (outcome : ClassifyOutcome) (vizOk : Bool) (timestamp : ℤ)
    (s : TrackerState) : TrackerState × Option DetectResult :=
  match outcome with
  | .fail => (s, none)
  | .ok predicted_class max_prob =>
    let current_stage := classifyStage predicted_class max_prob
    let s' := stageManagement s current_stage timestamp max_prob
    if vizOk then
      (s', some { stage := current_stage,
                  is_correct := current_stage == "correct",
                  probability := max_prob,
                  has_error := s'.has_error })
    else
      (s', none)

/-- Tracker states reachable from the initial detector state by detect
calls and resets. -/
inductive Reachable : TrackerState → Prop where
  | init : Reachable initState
  | step (o : ClassifyOutcome) (v : Bool) (t : ℤ) {s : TrackerState} :
      Reachable s → Reachable (detect o v t s).1
  | reset {s : TrackerState} :
      Reachable s → Reachable (clear_results s)

/-- Helper: below the threshold, the effective stage is "unknown". -/
lemma classifyStage_below (predicted_class : String) (max_prob : ℚ)
    (h : max_prob < PREDICTION_PROBABILITY_THRESHOLD) :
    classifyStage predicted_class max_prob = "unknown" := by
  have h' : ¬ max_prob ≥ PREDICTION_PROBABILITY_THRESHOLD := not_le.mpr h
  simp [classifyStage, h']

/-- Claim C1: if the max class probability is below
PREDICTION_PROBABILITY_THRESHOLD (0.6), the effective stage of the
verdict returned by detect is "unknown" regardless of the raw predicted
class label, it is not marked correct, and no error is flagged. -/
theorem C1_below_threshold_stage_unknown
    (predicted_class : String) (max_prob : ℚ) (t : ℤ) (s : TrackerState)
    (h : max_prob < PREDICTION_PROBABILITY_THRESHOLD) :
    (detect (.ok predicted_class max_prob) true t s).2 =
      some { stage := "unknown", is_correct := false,
             probability := max_prob, has_error := false } := by
  simp [detect, classifyStage_below predicted_class max_prob h, stageManagement]

/-- Witness for C1 at the spec's example: the classifier reports class
C with max probability 0.55 < 0.6, and the verdict stage is "unknown". -/
theorem C1_witness :
    (11 / 20 : ℚ) < PREDICTION_PROBABILITY_THRESHOLD ∧
    (detect (.ok "C" (11 / 20)) true 0 initState).2 =
      some { stage := "unknown", is_correct := false,
             probability := 11 / 20, has_error := false } :=
  ⟨by norm_num [PREDICTION_PROBABILITY_THRESHOLD],
   C1_below_threshold_stage_unknown "C" (11 / 20) 0 initState
     (by norm_num [PREDICTION_PROBABILITY_THRESHOLD])⟩

/-- One classified (post-threshold) frame fed to the stage-management
block: the stage together with the timestamp and probability that
would be recorded in a transition event. -/
structure StageFrame where
  stage : String
  timestamp : ℤ
  probability : ℚ
deriving DecidableEq

/-- Feeding a sequence of classified stages through the
stage-management block of PlankDetector.detect. -/
def runStages (s : TrackerState) : List StageFrame → TrackerState
  | [] => s
  | f :: rest => runStages (stageManagement s f.stage f.timestamp f.probability) rest

/-- The events appended while processing a frame sequence, given the
previous stage at the start. -/
def newEvents (prev : String) : List StageFrame → List TrackerEvent
  | [] => []
  | f :: rest =>
    (if isErrorStage f.stage = true ∧ f.stage ≠ prev
      then [⟨f.stage, f.timestamp, f.probability⟩] else [])
      ++ newEvents f.stage rest

/-- First element of each maximal contiguous run of equal stages, given
the stage preceding the list. -/
def runHeadsAux (prev : String) : List String → List String
  | [] => []
  | st :: rest => if st = prev then runHeadsAux prev rest else st :: runHeadsAux st rest

/-- First element of each maximal contiguous run of equal stages in a
stage sequence: the specification notion of one entry per run. -/
def runHeads : List String → List String
  | [] => []
  | st :: rest => st :: runHeadsAux st rest

lemma isErrorStage_iff (st : String) :
    isErrorStage st = true ↔ (st = "low back" ∨ st = "high back") := by
  simp [isErrorStage]

lemma stageManagement_previous (s : TrackerState) (st : String) (t : ℤ) (p : ℚ) :
    (stageManagement s st t p).previous_stage = st := rfl

lemma stageManagement_results (s : TrackerState) (st : String) (t : ℤ) (p : ℚ) :
    (stageManagement s st t p).results =
      s.results ++
        (if isErrorStage st = true ∧ st ≠ s.previous_stage
          then [⟨st, t, p⟩] else []) := by
  by_cases h1 : st = "low back" ∨ st = "high back"
  · by_cases h2 : s.previous_stage = st
    · simp [stageManagement, h1, h2, isErrorStage_iff]
    · simp [stageManagement, h1, h2, isErrorStage_iff, Ne.symm h2]
  · have hE : isErrorStage st = false := by
      rcases Bool.eq_false_or_eq_true (isErrorStage st) with h | h
      · exact absurd ((isErrorStage_iff st).mp h) h1
      · exact h
    simp [stageManagement, h1, hE]

lemma stageManagement_has_error (s : TrackerState) (st : String) (t : ℤ) (p : ℚ) :
    (stageManagement s st t p).has_error =
      if st = "low back" ∨ st = "high back" then
        (if s.previous_stage ≠ st then true else s.has_error)
      else false := by
  by_cases h1 : st = "low back" ∨ st = "high back" <;>
    by_cases h2 : s.previous_stage = st <;>
      simp [stageManagement, h1, h2]

lemma detect_ok_fst (cls : String) (prob : ℚ) (v : Bool) (t : ℤ) (s : TrackerState) :
    (detect (.ok cls prob) v t s).1 =
      stageManagement s (classifyStage cls prob) t prob := by
  cases v <;> simp [detect]

lemma runStages_results (frames : List StageFrame) :
    ∀ s : TrackerState, (runStages s frames).results =
      s.results ++ newEvents s.previous_stage frames := by
  induction frames with
  | nil => intro s; simp [runStages, newEvents]
  | cons f rest ih =>
    intro s
    rw [runStages, ih, stageManagement_results, stageManagement_previous,
      List.append_assoc, newEvents]

lemma newEvents_length (frames : List StageFrame) :
    ∀ prev : String, (newEvents prev frames).length =
      ((runHeadsAux prev (frames.map StageFrame.stage)).filter
        (fun st => isErrorStage st)).length := by
  induction frames with
  | nil => intro prev; simp [newEvents, runHeadsAux]
  | cons f rest ih =>
    intro prev
    rw [newEvents, List.map_cons, runHeadsAux]
    by_cases h : f.stage = prev
    · simp only [h, if_pos rfl]
      rw [if_neg (by simp [h])]
      simpa [h] using ih prev
    · rw [if_neg h]
      by_cases hE : isErrorStage f.stage = true
      · rw [if_pos ⟨hE, h⟩]
        simp [List.filter_cons, hE, ih f.stage]
      · rw [if_neg (by simp [hE])]
        simp [List.filter_cons, hE, ih f.stage]

lemma runHeads_unknown (L : List String) :
    ((runHeadsAux "unknown" L).filter (fun st => isErrorStage st)).length =
      ((runHeads L).filter (fun st => isErrorStage st)).length := by
  cases L with
  | nil => rfl
  | cons st rest =>
    rw [runHeads, runHeadsAux]
    by_cases h : st = "unknown"
    · rw [if_pos h]
      simp [List.filter_cons, h, isErrorStage]
    · rw [if_neg h]

/-- Claim C2: the Stage Tracker is edge-triggered.  Starting from the
initial state, the number of transition events appended for a sequence
of classified stages equals the number of maximal contiguous runs whose
stage is an error stage (one event per run, none for correct or unknown
frames); in particular the sequence correct, low back, low back,
low back, correct, low back (timestamps 1..6) yields exactly the two
events with timestamps 2 and 6. -/
theorem C2_edge_triggered_one_event_per_run :
    (∀ frames : List StageFrame,
      ((runStages initState frames).results).length =
        ((runHeads (frames.map StageFrame.stage)).filter
          (fun st => isErrorStage st)).length) ∧
    (runStages initState
        [⟨"correct", 1, 4/5⟩, ⟨"low back", 2, 4/5⟩, ⟨"low back", 3, 4/5⟩,
         ⟨"low back", 4, 4/5⟩, ⟨"correct", 5, 4/5⟩, ⟨"low back", 6, 4/5⟩]).results =
      [⟨"low back", 2, 4/5⟩, ⟨"low back", 6, 4/5⟩] := by
  constructor
  · intro frames
    rw [runStages_results]
    simp only [initState, List.nil_append]
    rw [newEvents_length frames "unknown", runHeads_unknown]
  · rfl

/-- Helper: in every reachable state, if the recorded previous stage is
an error stage, the error flag is set.  This covers the branch of
stageManagement that leaves has_error untouched on a repeated error
stage. -/
lemma reachable_error_flag {s : TrackerState} (h : Reachable s) :
    isErrorStage s.previous_stage = true → s.has_error = true := by
  induction h with
  | init => intro hE; simp [initState, isErrorStage] at hE
  | reset _ ih => intro hE; simp [clear_results, isErrorStage] at hE
  | @step o v t s' hr ih =>
    intro hE
    cases o with
    | fail => exact ih hE
    | ok cls prob =>
      rw [detect_ok_fst] at hE ⊢
      rw [stageManagement_previous] at hE
      rw [stageManagement_has_error]
      rw [if_pos ((isErrorStage_iff _).mp hE)]
      by_cases h2 : s'.previous_stage = classifyStage cls prob
      · rw [if_neg (by simp [h2])]
        exact ih (by rw [h2]; exact hE)
      · rw [if_pos h2]

/-- Claim C4: after every detect call on a reachable tracker state, the
has_error flag equals whether the stage classified for that frame is a
designated error stage; the flag has no memory beyond the immediate
stage. -/
theorem C4_has_error_iff_error_stage
    (s : TrackerState) (h : Reachable s) (cls : String) (prob : ℚ)
    (v : Bool) (t : ℤ) :
    (detect (.ok cls prob) v t s).1.has_error =
      isErrorStage (classifyStage cls prob) := by
  rw [detect_ok_fst, stageManagement_has_error]
  by_cases h1 : classifyStage cls prob = "low back" ∨ classifyStage cls prob = "high back"
  · rw [if_pos h1, (isErrorStage_iff _).mpr h1]
    by_cases h2 : s.previous_stage = classifyStage cls prob
    · rw [if_neg (by simp [h2])]
      exact reachable_error_flag h (by rw [h2]; exact (isErrorStage_iff _).mpr h1)
    · rw [if_pos h2]
  · rw [if_neg h1]
    have hE : isErrorStage (classifyStage cls prob) = false := by
      rcases Bool.eq_false_or_eq_true (isErrorStage (classifyStage cls prob)) with hb | hb
      · exact absurd ((isErrorStage_iff _).mp hb) h1
      · exact hb
    rw [hE]

/-- Witness for C4 at the initial state with an accepted low-back
classification. -/
theorem C4_witness :
    (detect (.ok "L" (4/5)) true 0 initState).1.has_error =
      isErrorStage (classifyStage "L" (4/5)) :=
  C4_has_error_iff_error_stage initState Reachable.init "L" (4/5) true 0

/-- Counterexample to claim C5 as stated: a detect call on which the
visualization block raises (after the stage decision has been applied)
fails, yet the tracker state differs from the state before the call. -/
theorem C5_counterexample :
    (detect (.ok "L" (9/10)) false 0 initState).2 = none ∧
    (detect (.ok "L" (9/10)) false 0 initState).1 ≠ initState := by
  have hcls : classifyStage "L" (9/10) = "low back" := by
    norm_num [classifyStage, PREDICTION_PROBABILITY_THRESHOLD]
    decide
  constructor
  · rfl
  · intro heq
    have hprev := congrArg TrackerState.previous_stage heq
    rw [detect_ok_fst, stageManagement_previous, hcls] at hprev
    simp [initState] at hprev

/-- Claim C5 as amended: a failure in the fallible front part of detect
(keypoint extraction, scaling, prediction) leaves the tracker state
exactly as before the call; any completed classification applies the
full stage-management update, so even when the later visualization step
fails the state is the complete stage-decision update, never a partial
one. -/
theorem C5_amended_no_partial_update
    (v : Bool) (t : ℤ) (s : TrackerState) (cls : String) (prob : ℚ) :
    (detect .fail v t s).1 = s ∧
    (detect (.ok cls prob) v t s).1 =
      stageManagement s (classifyStage cls prob) t prob :=
  ⟨rfl, detect_ok_fst cls prob v t s⟩

/-- Claim C6: clear_results resets the previous stage to "unknown",
empties the event list and clears has_error; consequently the first
frame classified into an error stage after a reset always appends a
transition event (the result list holds exactly that event). -/
theorem C6_reset_then_error_appends
    (s0 : TrackerState) (cls : String) (prob : ℚ) (v : Bool) (t : ℤ)
    (hE : isErrorStage (classifyStage cls prob) = true) :
    clear_results s0 =
      { previous_stage := "unknown", results := [], has_error := false } ∧
    (detect (.ok cls prob) v t (clear_results s0)).1.results =
      [⟨classifyStage cls prob, t, prob⟩] := by
  refine ⟨rfl, ?_⟩
  rw [detect_ok_fst, stageManagement_results]
  have hne : classifyStage cls prob ≠ (clear_results s0).previous_stage := by
    rcases (isErrorStage_iff _).mp hE with h1 | h1 <;> rw [h1] <;>
      simp [clear_results]
  rw [if_pos ⟨hE, hne⟩]
  simp [clear_results]

/-- Witness for C6: reset a tracker that already has history, then a
low-back classification at probability 0.8 appends exactly one event. -/
theorem C6_witness :
    isErrorStage (classifyStage "L" (4/5)) = true ∧
    (detect (.ok "L" (4/5)) true 7
        (clear_results
          { previous_stage := "low back",
            results := [⟨"low back", 0, 9/10⟩], has_error := true })).1.results =
      [⟨classifyStage "L" (4/5), 7, 4/5⟩] := by
  have hcls : classifyStage "L" (4/5) = "low back" := by
    norm_num [classifyStage, PREDICTION_PROBABILITY_THRESHOLD]
    decide
  have hE : isErrorStage (classifyStage "L" (4/5)) = true := by
    rw [hcls]; rfl
  exact ⟨hE,
    (C6_reset_then_error_appends
      { previous_stage := "low back",
        results := [⟨"low back", 0, 9/10⟩], has_error := true }
      "L" (4/5) true 7 hE).2⟩

/-- Helper: only an above-threshold probability can yield an error
stage. -/
lemma classify_error_threshold (cls : String) (prob : ℚ)
    (h : isErrorStage (classifyStage cls prob) = true) :
    PREDICTION_PROBABILITY_THRESHOLD ≤ prob := by
  by_contra hc
  push_neg at hc
  rw [classifyStage_below cls prob hc] at h
  simp [isErrorStage] at h

/-- Claim C10: in every reachable tracker state, every transition event
in the results list records a probability at or above
PREDICTION_PROBABILITY_THRESHOLD; no logged error event carries a
sub-threshold confidence. -/
theorem C10_events_above_threshold
    (s : TrackerState) (h : Reachable s) :
    ∀ e ∈ s.results, PREDICTION_PROBABILITY_THRESHOLD ≤ e.probability := by
  induction h with
  | init => intro e he; simp [initState] at he
  | reset _ ih => intro e he; simp [clear_results] at he
  | @step o v t s' hr ih =>
    intro e he
    cases o with
    | fail => exact ih e he
    | ok cls prob =>
      rw [detect_ok_fst, stageManagement_results] at he
      rcases List.mem_append.mp he with hOld | hNew
      · exact ih e hOld
      · by_cases hc : isErrorStage (classifyStage cls prob) = true ∧
            classifyStage cls prob ≠ s'.previous_stage
        · rw [if_pos hc] at hNew
          rcases List.mem_singleton.mp hNew with rfl
          exact classify_error_threshold cls prob hc.1
        · rw [if_neg hc] at hNew
          simp at hNew

/-- Witness for C10: one detect call from the initial state at
probability 0.7 logs a low-back event, whose recorded probability is at
least the threshold. -/
theorem C10_witness :
    (⟨"low back", 0, 7/10⟩ : TrackerEvent) ∈
      (detect (.ok "L" (7/10)) true 0 initState).1.results ∧
    PREDICTION_PROBABILITY_THRESHOLD ≤ ((7:ℚ)/10) := by
  have hcls : classifyStage "L" (7/10) = "low back" := by
    norm_num [classifyStage, PREDICTION_PROBABILITY_THRESHOLD]
    decide
  have hmem : (⟨"low back", 0, 7/10⟩ : TrackerEvent) ∈
      (detect (.ok "L" (7/10)) true 0 initState).1.results := by
    rw [detect_ok_fst, stageManagement_results, hcls]
    simp [initState, isErrorStage]
  exact ⟨hmem,
    C10_events_above_threshold _ (Reachable.step (.ok "L" (7/10)) true 0 Reachable.init)
      ⟨"low back", 0, 7/10⟩ hmem⟩

/-- The important landmark names configured by
PlankDetector.init_important_landmarks (plank_detector.py lines 16-34). -/
def important_landmarks : List String :=
  ["NOSE", "LEFT_SHOULDER", "RIGHT_SHOULDER", "LEFT_ELBOW", "RIGHT_ELBOW",
   "LEFT_WRIST", "RIGHT_WRIST", "LEFT_HIP", "RIGHT_HIP", "LEFT_KNEE",
   "RIGHT_KNEE", "LEFT_ANKLE", "RIGHT_ANKLE", "LEFT_HEEL", "RIGHT_HEEL",
   "LEFT_FOOT_INDEX", "RIGHT_FOOT_INDEX"]

/-- Looking one configured landmark name up in the landmark set
(utils.py lines 17-18): the name is resolved through the estimator's
name-to-index enumeration, then the index is looked up in the landmark
list.  A name that is not a member of the enumeration, or an index
outside the list, is the exception the code raises. -/
def resolveLandmark (lookup : String → Option ℕ) (landmarks : List Landmark)
    (name : String) : Option Landmark :=
  match lookup name with
  | none => none
  | some i => landmarks[i]?

/-- utils.extract_important_keypoints (utils.py lines 6-21): for each
important landmark name in the configured order, emit x, y, z,
visibility contiguously; the first name that does not resolve raises
(carried here as the error value). -/
def extract_important_keypoints (lookup : String → Option ℕ)
    (landmarks : List Landmark) : List String → Except String (List ℚ)
  | [] => .ok []
  | name :: rest =>
    match resolveLandmark lookup landmarks name,
          extract_important_keypoints lookup landmarks rest with
    | none, _ => .error name
    | some _, .error e => .error e
    | some lm, .ok tail => .ok ([lm.x, lm.y, lm.z, lm.visibility] ++ tail)

/-- Resolving every configured name of a list in order (the
specification notion of all names being present in the landmark set). -/
def resolveAll (lookup : String → Option ℕ) (landmarks : List Landmark) :
    List String → Option (List Landmark)
  | [] => some []
  | n :: ns =>
    match resolveLandmark lookup landmarks n,
          resolveAll lookup landmarks ns with
    | none, _ => none
    | some _, none => none
    | some lm, some rest => some (lm :: rest)

/-- Claim C7: a successfully built feature vector lists, for each
landmark name in the configured order, the values x, y, z, visibility
contiguously, so its total length is 4 times the number of important
landmarks. -/
theorem C7_feature_vector_order_and_length
    (lookup : String → Option ℕ) (landmarks : List Landmark)
    (names : List String) (data : List ℚ)
    (h : extract_important_keypoints lookup landmarks names = .ok data) :
    ∃ resolved : List Landmark,
      resolveAll lookup landmarks names = some resolved ∧
      data = (resolved.map (fun lm => [lm.x, lm.y, lm.z, lm.visibility])).flatten ∧
      data.length = 4 * names.length := by
  induction names generalizing data with
  | nil =>
    rw [extract_important_keypoints] at h
    obtain rfl : ([] : List ℚ) = data := by
      cases h
      rfl
    exact ⟨[], rfl, by simp, by simp⟩
  | cons n ns ih =>
    rw [extract_important_keypoints] at h
    cases hr : resolveLandmark lookup landmarks n with
    | none => rw [hr] at h; exact absurd h (by simp)
    | some lm =>
      rw [hr] at h
      cases he : extract_important_keypoints lookup landmarks ns with
      | error e => rw [he] at h; exact absurd h (by simp)
      | ok tail =>
        rw [he] at h
        obtain rfl : [lm.x, lm.y, lm.z, lm.visibility] ++ tail = data := by
          cases h
          rfl
        obtain ⟨resolved, hres, hdata, hlen⟩ := ih tail he
        refine ⟨lm :: resolved, ?_, ?_, ?_⟩
        · rw [resolveAll, hr, hres]
        · rw [hdata]
          simp
        · simp only [List.length_append, List.length_cons, List.length_nil, hlen]
          ring

/-- Witness for C7: a two-name configuration over a two-point landmark
set builds the eight-value vector in configured order. -/
theorem C7_witness :
    extract_important_keypoints
        (fun n => if n = "NOSE" then some 0
                  else if n = "LEFT_SHOULDER" then some 1 else none)
        [⟨1, 2, 3, 1⟩, ⟨5, 6, 7, 1⟩] ["NOSE", "LEFT_SHOULDER"] =
      .ok [1, 2, 3, 1, 5, 6, 7, 1] ∧
    ∃ resolved : List Landmark,
      resolveAll
          (fun n => if n = "NOSE" then some 0
                    else if n = "LEFT_SHOULDER" then some 1 else none)
          [⟨1, 2, 3, 1⟩, ⟨5, 6, 7, 1⟩] ["NOSE", "LEFT_SHOULDER"] = some resolved ∧
      ([1, 2, 3, 1, 5, 6, 7, 1] : List ℚ) =
        (resolved.map (fun lm => [lm.x, lm.y, lm.z, lm.visibility])).flatten ∧
      ([1, 2, 3, 1, 5, 6, 7, 1] : List ℚ).length =
        4 * (["NOSE", "LEFT_SHOULDER"] : List String).length :=
  ⟨rfl, C7_feature_vector_order_and_length _ _ _ _ rfl⟩

/-- Claim C8: the feature builder deterministically signals an error
(never silently zero-fills) whenever any configured landmark name is
not present in the landmark set. -/
theorem C8_missing_landmark_errors
    (lookup : String → Option ℕ) (landmarks : List Landmark)
    (names : List String)
    (h : ∃ n ∈ names, resolveLandmark lookup landmarks n = none) :
    ∃ e, extract_important_keypoints lookup landmarks names = .error e := by
  induction names with
  | nil => simp at h
  | cons n ns ih =>
    rcases h with ⟨m, hm, hnone⟩
    rcases List.mem_cons.mp hm with rfl | hmem
    · exact ⟨m, by simp [extract_important_keypoints, hnone]⟩
    · cases hr : resolveLandmark lookup landmarks n with
      | none => exact ⟨n, by simp [extract_important_keypoints, hr]⟩
      | some lm =>
        rcases ih ⟨m, hmem, hnone⟩ with ⟨e, he⟩
        exact ⟨e, by simp [extract_important_keypoints, hr, he]⟩

/-- Witness for C8: a landmark set in which "NOSE" does not resolve
makes the feature builder signal an error. -/
theorem C8_witness :
    (∃ n ∈ (["NOSE"] : List String),
      resolveLandmark (fun _ => none) [] n = none) ∧
    ∃ e, extract_important_keypoints (fun _ => none) [] ["NOSE"] = .error e :=
  ⟨⟨"NOSE", by simp, rfl⟩,
   C8_missing_landmark_errors _ _ _ ⟨"NOSE", by simp, rfl⟩⟩

/-- Python str.lower as applied to the ASCII pose names passed through
pose_detector.py: lowercase each character. -/
def lowerName (s : String) : String := ⟨s.data.map Char.toLower⟩

/-- The detector registry POSE_DETECTORS of pose_detectors/__init__.py:
only plank is mapped to a concrete detector class. -/
def POSE_DETECTORS : List String := ["plank"]

/-- is_pose_supported of pose_detectors/__init__.py: membership of the
lowercased name in the registry. -/
def is_pose_supported (pose_name : String) : Bool :=
  POSE_DETECTORS.contains (lowerName pose_name)

/-- The pose-routing state of YogaPoseDetector (pose_detector.py lines
35-37): the currently bound pose-specific detector, carried here as its
tracker state, and the current pose name. -/
structure OrchestratorState where
  current_detector : Option TrackerState
  current_pose : Option String
deriving DecidableEq

/-- YogaPoseDetector.set_target_pose (pose_detector.py lines 48-66):
lowercase the name; on a pose switch bind a fresh detector when the
registry supports the pose and its model artifacts load (load_ok),
unbind on an unsupported pose, and on a load failure unbind the
detector without updating the current pose. -/
def set_target_pose (o : OrchestratorState) (pose_name : String)
    (load_ok : Bool) : OrchestratorState :=
  let p := lowerName pose_name
  if some p ≠ o.current_pose then
    if is_pose_supported p then
      if load_ok then
        { current_detector := some initState, current_pose := some p }
      else
        { current_detector := none, current_pose := o.current_pose }
    else
      { current_detector := none, current_pose := some p }
  else o

/-- Per-call inputs of predict_pose that come from outside the tracker:
whether keypoint extraction found a body (pose_detector.py lines
110-121), the outcome of the bound detector's fallible steps and of its
visualization step, whether detector construction succeeds inside
set_target_pose, and the random draws of the demo fallback (lines
152-162). -/
structure FrameInput where
  extraction : Bool
  classify : ClassifyOutcome
  vizOk : Bool
  load_ok : Bool
  demo_confidence : ℚ
  demo_pose : String
deriving DecidableEq

/-- The verdict dict assembled by YogaPoseDetector.predict_pose
(pose_detector.py lines 101-162); a key that is absent from the dict,
or carries Python None, is the none case. -/
structure Verdict where
  success : Bool
  message : Option String
  pose : Option String
  stage : Option String
  is_correct : Option Bool
  confidence : Option ℚ
  has_error : Option Bool
  matches_target : Option Bool
  mode : Option String
  error : Option String
deriving DecidableEq

/-- The dict returned when keypoint extraction finds no body
(pose_detector.py lines 114-121). -/
def noPoseVerdict : Verdict :=
  { success := false, message := some "No pose detected",
    pose := none, stage := none, is_correct := none,
    confidence := some 0, has_error := none,
    matches_target := none, mode := none, error := none }

/-- YogaPoseDetector.predict_pose (pose_detector.py lines 101-162):
set the target pose if given, run keypoint extraction, then either the
bound pose-specific detector (success or caught error) or the demo
fallback. -/
def predict_pose (o : OrchestratorState) (input : FrameInput)
    (target_pose : Option String) : OrchestratorState × Verdict :=
  let o1 :=
    match target_pose with
    | some tp => set_target_pose o tp input.load_ok
    | none => o
  if input.extraction = false then
    (o1, noPoseVerdict)
  else
    match o1.current_detector with
    | some ts =>
      match detect input.classify input.vizOk 0 ts with
      | (ts', some r) =>
        ({ o1 with current_detector := some ts' },
         { success := true, message := none, pose := o1.current_pose,
           stage := some r.stage, is_correct := some r.is_correct,
           confidence := some r.probability, has_error := some r.has_error,
           matches_target := some r.is_correct,
           mode := some "specific_detector", error := none })
      | (ts', none) =>
        ({ o1 with current_detector := some ts' },
         { success := false, message := none, pose := none, stage := none,
           is_correct := none, confidence := none, has_error := none,
           matches_target := none, mode := none,
           error := some "Error while detecting plank" })
    | none =>
      (o1, { success := true, message := none,
             pose := some (o1.current_pose.getD input.demo_pose),
             stage := none,
             is_correct := some (decide (input.demo_confidence > 7/10)),
             confidence := some input.demo_confidence, has_error := none,
             matches_target := none, mode := some "demo", error := none })

/-- Helper: whenever a detector is bound after set_target_pose, the
current pose is the lowercased target. -/
lemma set_target_pose_bound (o : OrchestratorState) (tp : String)
    (lk : Bool) (ts : TrackerState)
    (h : (set_target_pose o tp lk).current_detector = some ts) :
    (set_target_pose o tp lk).current_pose = some (lowerName tp) := by
  unfold set_target_pose at h ⊢
  by_cases h1 : some (lowerName tp) ≠ o.current_pose
  · rw [if_pos h1] at h ⊢
    by_cases h2 : is_pose_supported (lowerName tp) = true
    · rw [if_pos h2] at h ⊢
      cases lk
      · simp at h
      · rfl
    · rw [if_neg h2] at h
      simp at h
  · rw [if_neg h1] at h ⊢
    push_neg at h1
    exact h1.symm

/-- Claim C3: with a target pose given and a pose-specific detector
bound, on a successfully classified frame the verdict's matches_target
field is true exactly when the classified stage is correct and the
verdict's pose name is the (lowercased) target pose name. -/
theorem C3_matches_target_iff
    (o : OrchestratorState) (input : FrameInput) (tp : String)
    (ts : TrackerState) (cls : String) (prob : ℚ)
    (hext : input.extraction = true)
    (hcls : input.classify = .ok cls prob)
    (hviz : input.vizOk = true)
    (hbound : (set_target_pose o tp input.load_ok).current_detector = some ts) :
    ((predict_pose o input (some tp)).2.matches_target = some true ↔
      ((predict_pose o input (some tp)).2.stage = some "correct" ∧
        (predict_pose o input (some tp)).2.pose = some (lowerName tp))) := by
  have hpose := set_target_pose_bound o tp input.load_ok ts hbound
  simp only [predict_pose, detect, hext, hcls, hviz, hbound, hpose]
  simp [beq_iff_eq]

/-- Witness for C3: binding the plank detector from a fresh
orchestrator and classifying class C at probability 0.8. -/
theorem C3_witness :
    ((⟨true, .ok "C" (4/5), true, true, 0, "x"⟩ : FrameInput).extraction = true) ∧
    ((set_target_pose ⟨none, none⟩ "plank"
        (⟨true, .ok "C" (4/5), true, true, 0, "x"⟩ : FrameInput).load_ok).current_detector
      = some initState) ∧
    ((predict_pose ⟨none, none⟩ ⟨true, .ok "C" (4/5), true, true, 0, "x"⟩
        (some "plank")).2.matches_target = some true ↔
      ((predict_pose ⟨none, none⟩ ⟨true, .ok "C" (4/5), true, true, 0, "x"⟩
          (some "plank")).2.stage = some "correct" ∧
        (predict_pose ⟨none, none⟩ ⟨true, .ok "C" (4/5), true, true, 0, "x"⟩
          (some "plank")).2.pose = some (lowerName "plank"))) :=
  ⟨rfl, rfl,
   C3_matches_target_iff ⟨none, none⟩ ⟨true, .ok "C" (4/5), true, true, 0, "x"⟩
     "plank" initState "C" (4/5) rfl rfl rfl rfl⟩

/-- Claim C9: when the landmark extractor signals absence, predict_pose
returns the failure verdict with message "No pose detected", the
classifier outcome is never consulted, and the tracker state is exactly
the state after the (extraction-independent) target switch; with no
target given the orchestrator state is fully unchanged. -/
theorem C9_no_pose_detected
    (o : OrchestratorState) (input : FrameInput) (target_pose : Option String)
    (h : input.extraction = false) :
    predict_pose o input target_pose =
      (target_pose.elim o (fun tp => set_target_pose o tp input.load_ok),
        noPoseVerdict) ∧
    predict_pose o input none = (o, noPoseVerdict) := by
  constructor
  · cases target_pose <;> simp [predict_pose, h, Option.elim]
  · simp [predict_pose, h]

/-- Witness for C9: an orchestrator with a bound plank detector holding
history returns the no-pose verdict unchanged when no body is found. -/
theorem C9_witness :
    ((⟨false, .ok "L" (9/10), true, true, 1, "tree"⟩ : FrameInput).extraction
      = false) ∧
    predict_pose
        ⟨some ⟨"low back", [⟨"low back", 3, 7/10⟩], true⟩, some "plank"⟩
        ⟨false, .ok "L" (9/10), true, true, 1, "tree"⟩ none =
      (⟨some ⟨"low back", [⟨"low back", 3, 7/10⟩], true⟩, some "plank"⟩,
        noPoseVerdict) :=
  ⟨rfl,
   (C9_no_pose_detected
     ⟨some ⟨"low back", [⟨"low back", 3, 7/10⟩], true⟩, some "plank"⟩
     ⟨false, .ok "L" (9/10), true, true, 1, "tree"⟩ none rfl).2⟩
